import Mathlib

/-!
Verification of the triangular-element FEM module: the constant-strain
triangle B-matrix routines (`utlis/element.py`), the von Mises stress
formulas and the stage ordering of the modal-analysis driver
(`main_modal.py`).  Tensor arithmetic is embedded over exact rationals;
the square root in the von Mises formulas is embedded over the reals.
-/

namespace FEM

/-- The degeneracy threshold `1e-10` used by both B-matrix routines. -/
def degenEps : ℚ := 1 / 10 ^ 10

/-- Node coordinates of one triangle, the shape-(3,2) tensor `node_coords`:
row 0 is `(x1, y1)`, row 1 is `(x2, y2)`, row 2 is `(x3, y3)`. -/
structure Tri where
  x1 : ℚ
  y1 : ℚ
  x2 : ℚ
  y2 : ℚ
  x3 : ℚ
  y3 : ℚ
deriving DecidableEq, Repr

/-- The signed area `A = 0.5 * (x1*(y2 - y3) + x2*(y3 - y1) + x3*(y1 - y2))`
computed inside `compute_B_matrix`. -/
def area (t : Tri) : ℚ :=
  (1 / 2) * (t.x1 * (t.y2 - t.y3) + (t.x2 * (t.y3 - t.y1) + t.x3 * (t.y1 - t.y2)))

/-- The method `TriangularElement.shape_functions`: `xi, eta = natural_coords;`
`N = [1 - xi - eta, xi, eta]`. -/
def shape_functions (natural_coords : ℚ × ℚ) : List ℚ :=
  let xi := natural_coords.1
  let eta := natural_coords.2
  [1 - xi - eta, xi, eta]

/-- The 3×6 matrix built in the `torch.tensor([...])` literal of
`TriangularElement.compute_B_matrix` (the non-degenerate branch). -/
def Bsingle (t : Tri) : List (List ℚ) :=
  let A := area t
  let b1 := (t.y2 - t.y3) / (2 * A)
  let b2 := (t.y3 - t.y1) / (2 * A)
  let b3 := (t.y1 - t.y2) / (2 * A)
  let c1 := (t.x3 - t.x2) / (2 * A)
  let c2 := (t.x1 - t.x3) / (2 * A)
  let c3 := (t.x2 - t.x1) / (2 * A)
  [[b1, 0, b2, 0, b3, 0],
   [0, c1, 0, c2, 0, c3],
   [c1, b1, c2, b2, c3, b3]]

/-- The method `TriangularElement.compute_B_matrix`: computes the signed area `A`,
raises `ValueError` when `abs(A) < 1e-10`, and otherwise returns the
3×6 strain-displacement matrix.  (The (3,2) shape check of the source is
enforced by the type `Tri`.) -/
def compute_B_matrix (t : Tri) : Except String (List (List ℚ)) :=
  let A := area t
  if |A| < degenEps then
    .error "The provided node coordinates result in a degenerate triangle with almost zero area."
  else
    .ok (Bsingle t)

/-! Elementwise tensor arithmetic for the vectorized path: a torch vector
of length `K` is a `List ℚ`, and the elementwise operators used by
`compute_B_matrix_vectorized` are `zipWith`/`map`. -/

/-- Elementwise product of two torch vectors. -/
def ewMul (u v : List ℚ) : List ℚ := List.zipWith (fun a b => a * b) u v

/-- Elementwise difference of two torch vectors. -/
def ewSub (u v : List ℚ) : List ℚ := List.zipWith (fun a b => a - b) u v

/-- Elementwise sum of two torch vectors. -/
def ewAdd (u v : List ℚ) : List ℚ := List.zipWith (fun a b => a + b) u v

/-- Elementwise quotient of two torch vectors. -/
def ewDiv (u v : List ℚ) : List ℚ := List.zipWith (fun a b => a / b) u v

/-- Scalar times a torch vector. -/
def scale (c : ℚ) (u : List ℚ) : List ℚ := u.map (fun a => c * a)

/-- The tensor `torch.zeros_like` on a torch vector. -/
def zerosLike (u : List ℚ) : List ℚ := u.map (fun _ => 0)

/-- The stack `torch.stack([v1, v2, v3, v4, v5, v6], dim=1)` on six length-`K`
vectors: row `k` of the result is `[v1[k], ..., v6[k]]`. -/
def stack6 : List ℚ → List ℚ → List ℚ → List ℚ → List ℚ → List ℚ → List (List ℚ)
  | a :: as, b :: bs, c :: cs, d :: ds, e :: es, f :: fs =>
      [a, b, c, d, e, f] :: stack6 as bs cs ds es fs
  | _, _, _, _, _, _ => []

/-- The stack `torch.stack([m1, m2, m3], dim=1)` on three `(K,6)` stacks: entry `k`
of the result is `[m1[k], m2[k], m3[k]]`. -/
def stack3 : List (List ℚ) → List (List ℚ) → List (List ℚ) → List (List (List ℚ))
  | a :: as, b :: bs, c :: cs => [a, b, c] :: stack3 as bs cs
  | _, _, _ => []

/-- The length-`K` vector of signed areas computed inside
`compute_B_matrix_vectorized` from the stacked `(K,3,2)` input. -/
def areaVec (batch : List Tri) : List ℚ :=
  let x1 := batch.map Tri.x1
  let y1 := batch.map Tri.y1
  let x2 := batch.map Tri.x2
  let y2 := batch.map Tri.y2
  let x3 := batch.map Tri.x3
  let y3 := batch.map Tri.y3
  scale (1 / 2) (ewAdd (ewMul x1 (ewSub y2 y3))
    (ewAdd (ewMul x2 (ewSub y3 y1)) (ewMul x3 (ewSub y1 y2))))

/-- The `(K,3,6)` stack built in the non-degenerate branch of
`compute_B_matrix_vectorized`. -/
def Bvec (batch : List Tri) : List (List (List ℚ)) :=
  let y1 := batch.map Tri.y1
  let y2 := batch.map Tri.y2
  let y3 := batch.map Tri.y3
  let x1 := batch.map Tri.x1
  let x2 := batch.map Tri.x2
  let x3 := batch.map Tri.x3
  let A := areaVec batch
  let b1 := ewDiv (ewSub y2 y3) (scale 2 A)
  let b2 := ewDiv (ewSub y3 y1) (scale 2 A)
  let b3 := ewDiv (ewSub y1 y2) (scale 2 A)
  let c1 := ewDiv (ewSub x3 x2) (scale 2 A)
  let c2 := ewDiv (ewSub x1 x3) (scale 2 A)
  let c3 := ewDiv (ewSub x2 x1) (scale 2 A)
  stack3
    (stack6 b1 (zerosLike b1) b2 (zerosLike b2) b3 (zerosLike b3))
    (stack6 (zerosLike c1) c1 (zerosLike c2) c2 (zerosLike c3) c3)
    (stack6 c1 b1 c2 b2 c3 b3)

/-- The method `TriangularElement.compute_B_matrix_vectorized`: computes all signed
areas, raises `ValueError` when `torch.any(torch.abs(A) < 1e-10)`, and
otherwise returns the stacked `(K,3,6)` tensor of B-matrices.  (The
(K,3,2) shape check of the source is enforced by the type `List Tri`.) -/
def compute_B_matrix_vectorized (batch : List Tri) :
    Except String (List (List (List ℚ))) :=
  if (areaVec batch).any (fun a => |a| < degenEps) then
    .error "At least one set of node coordinates result in a degenerate triangle with almost zero area."
  else
    .ok (Bvec batch)

/-- Entry `(i, j)` of a list-of-lists matrix (0 outside the bounds). -/
def entry (M : List (List ℚ)) (i j : ℕ) : ℚ := (M.getD i []).getD j 0

/-- Matrix–vector product of a list-of-lists matrix with a displacement
vector: each strain component is the dot product of a row of `B` with the
nodal displacement vector. -/
def matVec (M : List (List ℚ)) (x : List ℚ) : List ℚ :=
  M.map (fun row => (List.zipWith (fun a b => a * b) row x).sum)

/-! Von Mises formulas of `post_processing` in `main_modal.py`. -/

/-- The 2D-branch formula
`np.sqrt(stress11**2 - stress11*stress22 + stress22**2 + 3*stress12**2)`. -/
noncomputable def von_mises_2d (s11 s22 s12 : ℝ) : ℝ :=
  Real.sqrt (s11 ^ 2 - s11 * s22 + s22 ^ 2 + 3 * s12 ^ 2)

/-- The 3D-branch formula
`np.sqrt(0.5*((s11-s22)**2 + (s22-s33)**2 + (s33-s11)**2) + 3*(s12**2 + s13**2 + s23**2))`. -/
noncomputable def von_mises_3d (s11 s22 s33 s23 s13 s12 : ℝ) : ℝ :=
  Real.sqrt (0.5 * ((s11 - s22) ^ 2 + (s22 - s33) ^ 2 + (s33 - s11) ^ 2) +
    3 * (s12 ^ 2 + s13 ^ 2 + s23 ^ 2))

/-! Stage trace of the analysis driver.  The `FiniteElementModel` methods
called by `run_analysis` and `post_processing` live in
`utlis/fem_module.py`, outside the visible source; for the ordering
claims only the sequence of method invocations matters, so each method
is modelled as the pipeline stage it performs and the driver as the
trace of stages it emits, in invocation order. -/

/-- One pipeline stage of `main_modal.py`, named after the model method
(or export call) that performs it. -/
inductive Stage
  | initElementClass
  | generateMaterialDict
  | computeMassMatrix
  | computeElementStiffnessWithShearLocking
  | computeElementStiffness
  | assembleGlobalStiffness
  | assembleGlobalMassMatrix
  | assembleGlobalLoadVector
  | solveSystemModal
  | computeGPStrainsStresses
  | writeVTK
deriving DecidableEq, Repr

/-- The driver `run_analysis(model)`: the stages it performs in order.  The
parameter is the value of the `--incompatible_mode_element` flag handed
in through `args`; the source reassigns
`args.incompatible_mode_element = True` before the branch, modelled by
the shadowing `let`. -/
def run_analysis (incompatible_mode_element : Bool) : List Stage :=
  let head : List Stage :=
    [.initElementClass, .generateMaterialDict, .computeMassMatrix]
  let incompatible_mode_element := true
  let stiff : List Stage :=
    if incompatible_mode_element = true then
      [.computeElementStiffnessWithShearLocking]
    else
      [.computeElementStiffness]
  head ++ stiff ++
    [.assembleGlobalStiffness, .assembleGlobalMassMatrix,
     .assembleGlobalLoadVector, .solveSystemModal]

/-- The driver `post_processing(model)`: stress/strain recovery then VTK export. -/
def post_processing : List Stage := [.computeGPStrainsStresses, .writeVTK]

/-- The driver `main(args)`: `run_analysis(model)` then `post_processing(model)`. -/
def main_trace (incompatible_mode_element : Bool) : List Stage :=
  run_analysis incompatible_mode_element ++ post_processing

/-! Helper lemmas. -/

theorem areaVec_cons (t : Tri) (rest : List Tri) :
    areaVec (t :: rest) = area t :: areaVec rest := rfl

theorem areaVec_eq_map (batch : List Tri) : areaVec batch = batch.map area := by
  induction batch with
  | nil => rfl
  | cons t rest ih => rw [areaVec_cons, ih, List.map_cons]

theorem Bvec_cons (t : Tri) (rest : List Tri) :
    Bvec (t :: rest) = Bsingle t :: Bvec rest := rfl

theorem Bvec_eq_map (batch : List Tri) : Bvec batch = batch.map Bsingle := by
  induction batch with
  | nil => rfl
  | cons t rest ih => rw [Bvec_cons, ih, List.map_cons]

theorem area_ne_zero_of_not_degen (t : Tri) (h : ¬ |area t| < degenEps) :
    area t ≠ 0 := by
  intro h0
  exact h (by rw [h0]; norm_num [degenEps])

theorem compute_B_matrix_ok_of_not_degen (t : Tri) (h : ¬ |area t| < degenEps) :
    compute_B_matrix t = Except.ok (Bsingle t) := by
  simp only [compute_B_matrix]
  rw [if_neg h]

theorem mapM_compute_B_matrix_ok (batch : List Tri)
    (h : ∀ t ∈ batch, degenEps ≤ |area t|) :
    batch.mapM compute_B_matrix = Except.ok (batch.map Bsingle) := by
  induction batch with
  | nil => rfl
  | cons t rest ih =>
    have ht : compute_B_matrix t = Except.ok (Bsingle t) :=
      compute_B_matrix_ok_of_not_degen t (not_lt.mpr (h t (List.mem_cons_self t rest)))
    rw [List.mapM_cons, ht, ih (fun x hx => h x (List.mem_cons_of_mem t hx))]
    rfl

/-! Claim theorems and their witnesses. -/

/-- Claim C1: for every `node_coords` of shape (3,2) whose signed area
`A = ½[x1(y2−y3) + x2(y3−y1) + x3(y1−y2)]` satisfies `|A| ≥ 1e-10`,
`TriangularElement.compute_B_matrix` returns the 3×6 matrix
`[[b1,0,b2,0,b3,0],[0,c1,0,c2,0,c3],[c1,b1,c2,b2,c3,b3]]` with
`b1=(y2−y3)/(2A)`, `b2=(y3−y1)/(2A)`, `b3=(y1−y2)/(2A)`,
`c1=(x3−x2)/(2A)`, `c2=(x1−x3)/(2A)`, `c3=(x2−x1)/(2A)`. -/
theorem compute_B_matrix_nondegenerate_formula (t : Tri)
    (h : degenEps ≤ |area t|) :
    compute_B_matrix t = Except.ok
      [[(t.y2 - t.y3) / (2 * area t), 0, (t.y3 - t.y1) / (2 * area t), 0,
        (t.y1 - t.y2) / (2 * area t), 0],
       [0, (t.x3 - t.x2) / (2 * area t), 0, (t.x1 - t.x3) / (2 * area t), 0,
        (t.x2 - t.x1) / (2 * area t)],
       [(t.x3 - t.x2) / (2 * area t), (t.y2 - t.y3) / (2 * area t),
        (t.x1 - t.x3) / (2 * area t), (t.y3 - t.y1) / (2 * area t),
        (t.x2 - t.x1) / (2 * area t), (t.y1 - t.y2) / (2 * area t)]] :=
  compute_B_matrix_ok_of_not_degen t (not_lt.mpr h)

/-- Witness for C1 on the unit right triangle (0,0),(1,0),(0,1), whose
signed area is 1/2. -/
theorem compute_B_matrix_nondegenerate_formula_witness :
    degenEps ≤ |area ⟨0, 0, 1, 0, 0, 1⟩| ∧
    compute_B_matrix ⟨0, 0, 1, 0, 0, 1⟩ = Except.ok
      [[-1, 0, 1, 0, 0, 0], [0, -1, 0, 0, 0, 1], [-1, -1, 0, 1, 1, 0]] := by
  have harea : area ⟨0, 0, 1, 0, 0, 1⟩ = 1 / 2 := by norm_num [area]
  have hle : degenEps ≤ |area ⟨0, 0, 1, 0, 0, 1⟩| := by
    rw [harea, abs_of_nonneg (by norm_num : (0 : ℚ) ≤ 1 / 2)]
    norm_num [degenEps]
  refine ⟨hle, ?_⟩
  rw [compute_B_matrix_nondegenerate_formula ⟨0, 0, 1, 0, 0, 1⟩ hle]
  norm_num [harea]

/-- Claim C3: for every `node_coords` of shape (3,2) whose signed area
satisfies `|A| < 1e-10` (degenerate triangle),
`TriangularElement.compute_B_matrix` raises `ValueError` and returns no
matrix. -/
theorem compute_B_matrix_degenerate_error (t : Tri) (h : |area t| < degenEps) :
    compute_B_matrix t = Except.error
      "The provided node coordinates result in a degenerate triangle with almost zero area." := by
  simp only [compute_B_matrix]
  rw [if_pos h]

/-- Witness for C3 on the collinear nodes (0,0),(1,1),(2,2), whose
signed area is 0. -/
theorem compute_B_matrix_degenerate_error_witness :
    |area ⟨0, 0, 1, 1, 2, 2⟩| < degenEps ∧
    compute_B_matrix ⟨0, 0, 1, 1, 2, 2⟩ = Except.error
      "The provided node coordinates result in a degenerate triangle with almost zero area." := by
  have hlt : |area (⟨0, 0, 1, 1, 2, 2⟩ : Tri)| < degenEps := by
    have : area (⟨0, 0, 1, 1, 2, 2⟩ : Tri) = 0 := by norm_num [area]
    rw [this]; norm_num [degenEps]
  exact ⟨hlt, compute_B_matrix_degenerate_error ⟨0, 0, 1, 1, 2, 2⟩ hlt⟩

/-- Claim C4: the three shape-function values returned by
`TriangularElement.shape_functions` sum to exactly 1 at every
natural-coordinate point `(ξ, η)`. -/
theorem shape_functions_sum_one (natural_coords : ℚ × ℚ) :
    (shape_functions natural_coords).sum = 1 := by
  simp only [shape_functions, List.sum_cons, List.sum_nil]
  ring

/-- Claim C5: for a uniaxial stress state `σ11 = s` (all other components
zero) the von Mises stress of `post_processing` equals `|s|`, in both the
2D branch and the 3D branch. -/
theorem von_mises_uniaxial (s : ℝ) :
    von_mises_2d s 0 0 = |s| ∧ von_mises_3d s 0 0 0 0 0 = |s| := by
  constructor
  · have h1 : s ^ 2 - s * 0 + (0 : ℝ) ^ 2 + 3 * (0 : ℝ) ^ 2 = s ^ 2 := by ring
    rw [von_mises_2d, h1, Real.sqrt_sq_eq_abs]
  · have h2 : (0.5 : ℝ) * ((s - 0) ^ 2 + ((0 : ℝ) - 0) ^ 2 + (0 - s) ^ 2) +
        3 * ((0 : ℝ) ^ 2 + (0 : ℝ) ^ 2 + (0 : ℝ) ^ 2) = s ^ 2 := by ring
    rw [von_mises_3d, h2, Real.sqrt_sq_eq_abs]

/-- Claim C7: for every `node_coords` of shape (3,2) with signed area
`A ≤ −1e-10` (clockwise node ordering), `compute_B_matrix` does not
raise the degeneracy error and returns a B-matrix: the check tests only
`|A|`, so a negative area passes it. -/
theorem compute_B_matrix_negative_area_ok (t : Tri)
    (h : area t ≤ -degenEps) :
    compute_B_matrix t = Except.ok (Bsingle t) := by
  refine compute_B_matrix_ok_of_not_degen t (not_lt.mpr ?_)
  have hneg : area t ≤ 0 := le_trans h (by norm_num [degenEps])
  rw [abs_of_nonpos hneg]
  linarith

/-- Witness for C7 on the clockwise-ordered triangle (0,0),(0,1),(1,0),
whose signed area is −1/2. -/
theorem compute_B_matrix_negative_area_ok_witness :
    area ⟨0, 0, 0, 1, 1, 0⟩ ≤ -degenEps ∧
    compute_B_matrix ⟨0, 0, 0, 1, 1, 0⟩ = Except.ok (Bsingle ⟨0, 0, 0, 1, 1, 0⟩) := by
  have hle : area (⟨0, 0, 0, 1, 1, 0⟩ : Tri) ≤ -degenEps := by
    have : area (⟨0, 0, 0, 1, 1, 0⟩ : Tri) = -(1 / 2) := by norm_num [area]
    rw [this]; norm_num [degenEps]
  exact ⟨hle, compute_B_matrix_negative_area_ok ⟨0, 0, 0, 1, 1, 0⟩ hle⟩

/-- Claim C8: the analysis pipeline executes its stages strictly in
order — element mass and stiffness computation, then global stiffness
assembly, then global mass assembly, then global load-vector assembly,
then the modal solve, and only afterwards stress/strain recovery. -/
theorem main_trace_stage_order (flag : Bool) :
    main_trace flag =
      [Stage.initElementClass, Stage.generateMaterialDict,
       Stage.computeMassMatrix, Stage.computeElementStiffnessWithShearLocking,
       Stage.assembleGlobalStiffness, Stage.assembleGlobalMassMatrix,
       Stage.assembleGlobalLoadVector, Stage.solveSystemModal,
       Stage.computeGPStrainsStresses, Stage.writeVTK] := by
  cases flag <;> rfl

/-- Claim C9: the driver `run_analysis` overwrites `args.incompatible_mode_element`
with `True` before branching, so its behaviour does not depend on the
supplied flag value: any two flag values give the same trace, the
shear-locking stiffness path is always taken, and the plain
`compute_element_stiffness` branch is never executed. -/
theorem run_analysis_flag_independent (f1 f2 : Bool) :
    run_analysis f1 = run_analysis f2 ∧
    Stage.computeElementStiffnessWithShearLocking ∈ run_analysis f1 ∧
    Stage.computeElementStiffness ∉ run_analysis f1 := by
  cases f1 <;> cases f2 <;> exact ⟨rfl, by decide, by decide⟩

/-- Claim C2: for every batch of K node-coordinate triples, each with
`|A| ≥ 1e-10`, `compute_B_matrix_vectorized` on the stacked (K,3,2)
tensor equals, elementwise, the stack of the K results of
`compute_B_matrix` applied to each triple independently. -/
theorem compute_B_matrix_vectorized_eq_mapM (batch : List Tri)
    (h : ∀ t ∈ batch, degenEps ≤ |area t|) :
    compute_B_matrix_vectorized batch = batch.mapM compute_B_matrix := by
  have hany : ((areaVec batch).any fun a => decide (|a| < degenEps)) = false := by
    rw [areaVec_eq_map]
    simp only [List.any_eq_false, List.mem_map, decide_eq_true_eq, not_lt,
      forall_exists_index, and_imp]
    rintro a t ht rfl
    exact h t ht
  rw [mapM_compute_B_matrix_ok batch h]
  simp only [compute_B_matrix_vectorized, hany, Bool.false_eq_true, if_false]
  rw [Bvec_eq_map]

/-- Witness for C2 on a batch of two non-degenerate triangles with
signed areas 1/2 and 2. -/
theorem compute_B_matrix_vectorized_eq_mapM_witness :
    (∀ t ∈ ([⟨0, 0, 1, 0, 0, 1⟩, ⟨0, 0, 2, 0, 0, 2⟩] : List Tri),
      degenEps ≤ |area t|) ∧
    compute_B_matrix_vectorized [⟨0, 0, 1, 0, 0, 1⟩, ⟨0, 0, 2, 0, 0, 2⟩] =
      ([⟨0, 0, 1, 0, 0, 1⟩, ⟨0, 0, 2, 0, 0, 2⟩] : List Tri).mapM compute_B_matrix := by
  have h1 : area (⟨0, 0, 1, 0, 0, 1⟩ : Tri) = 1 / 2 := by norm_num [area]
  have h2 : area (⟨0, 0, 2, 0, 0, 2⟩ : Tri) = 2 := by norm_num [area]
  have h : ∀ t ∈ ([⟨0, 0, 1, 0, 0, 1⟩, ⟨0, 0, 2, 0, 0, 2⟩] : List Tri),
      degenEps ≤ |area t| := by
    intro t ht
    simp only [List.mem_cons, List.not_mem_nil, or_false] at ht
    rcases ht with rfl | rfl
    · rw [h1, abs_of_nonneg (by norm_num : (0 : ℚ) ≤ 1 / 2)]
      norm_num [degenEps]
    · rw [h2, abs_of_nonneg (by norm_num : (0 : ℚ) ≤ 2)]
      norm_num [degenEps]
  exact ⟨h, compute_B_matrix_vectorized_eq_mapM _ h⟩

/-- Claim C6: for every batch of node coordinates of shape (K,3,2), if at
least one element has `|A| < 1e-10` then `compute_B_matrix_vectorized`
raises `ValueError` for the whole batch and returns no B-matrices at
all. -/
theorem compute_B_matrix_vectorized_batch_error (batch : List Tri)
    (h : ∃ t ∈ batch, |area t| < degenEps) :
    compute_B_matrix_vectorized batch = Except.error
      "At least one set of node coordinates result in a degenerate triangle with almost zero area." := by
  have hany : ((areaVec batch).any fun a => decide (|a| < degenEps)) = true := by
    rw [areaVec_eq_map]
    simp only [List.any_eq_true, List.mem_map, decide_eq_true_eq]
    obtain ⟨t, ht, hlt⟩ := h
    exact ⟨area t, ⟨t, ht, rfl⟩, hlt⟩
  simp only [compute_B_matrix_vectorized, hany, if_true]

/-- Witness for C6 on a batch holding one non-degenerate triangle and
one collinear (zero-area) triangle. -/
theorem compute_B_matrix_vectorized_batch_error_witness :
    (∃ t ∈ ([⟨0, 0, 1, 0, 0, 1⟩, ⟨0, 0, 1, 1, 2, 2⟩] : List Tri),
      |area t| < degenEps) ∧
    compute_B_matrix_vectorized [⟨0, 0, 1, 0, 0, 1⟩, ⟨0, 0, 1, 1, 2, 2⟩] =
      Except.error
        "At least one set of node coordinates result in a degenerate triangle with almost zero area." := by
  have hd : |area (⟨0, 0, 1, 1, 2, 2⟩ : Tri)| < degenEps := by
    have : area (⟨0, 0, 1, 1, 2, 2⟩ : Tri) = 0 := by norm_num [area]
    rw [this]; norm_num [degenEps]
  have h : ∃ t ∈ ([⟨0, 0, 1, 0, 0, 1⟩, ⟨0, 0, 1, 1, 2, 2⟩] : List Tri),
      |area t| < degenEps :=
    ⟨⟨0, 0, 1, 1, 2, 2⟩, by simp, hd⟩
  exact ⟨h, compute_B_matrix_vectorized_batch_error _ h⟩

/-- Claim C10: for every triangle accepted by `compute_B_matrix`, the
returned coefficients satisfy `b1 + b2 + b3 = 0` and `c1 + c2 + c3 = 0`,
so `B` applied to any rigid-body translation `(u, v, u, v, u, v)` yields
the zero strain vector. -/
theorem B_matrix_rigid_body_translation (t : Tri) (B : List (List ℚ))
    (u v : ℚ) (h : compute_B_matrix t = Except.ok B) :
    entry B 0 0 + entry B 0 2 + entry B 0 4 = 0 ∧
    entry B 1 1 + entry B 1 3 + entry B 1 5 = 0 ∧
    matVec B [u, v, u, v, u, v] = [0, 0, 0] := by
  by_cases hd : |area t| < degenEps
  · rw [compute_B_matrix_degenerate_error t hd] at h
    exact absurd h (by simp)
  · rw [compute_B_matrix_ok_of_not_degen t hd] at h
    have hB : B = Bsingle t := by
      injection h with h1
      exact h1.symm
    subst hB
    have hA : area t ≠ 0 := area_ne_zero_of_not_degen t hd
    refine ⟨?_, ?_, ?_⟩
    · show (t.y2 - t.y3) / (2 * area t) + (t.y3 - t.y1) / (2 * area t) +
        (t.y1 - t.y2) / (2 * area t) = 0
      field_simp
    · show (t.x3 - t.x2) / (2 * area t) + (t.x1 - t.x3) / (2 * area t) +
        (t.x2 - t.x1) / (2 * area t) = 0
      field_simp
    · simp only [matVec, Bsingle, List.map_cons, List.map_nil,
        List.zipWith_cons_cons, List.zipWith_nil_left, List.zipWith_nil_right,
        List.sum_cons, List.sum_nil, List.cons.injEq, and_true]
      refine ⟨?_, ?_, ?_⟩ <;> field_simp <;> ring

/-- Witness for C10 on the unit right triangle with translation
`(u, v) = (3, 5)`. -/
theorem B_matrix_rigid_body_translation_witness :
    compute_B_matrix ⟨0, 0, 1, 0, 0, 1⟩ = Except.ok
      [[-1, 0, 1, 0, 0, 0], [0, -1, 0, 0, 0, 1], [-1, -1, 0, 1, 1, 0]] ∧
    (entry [[-1, 0, 1, 0, 0, 0], [0, -1, 0, 0, 0, 1], [-1, -1, 0, 1, 1, 0]] 0 0 +
      entry [[-1, 0, 1, 0, 0, 0], [0, -1, 0, 0, 0, 1], [-1, -1, 0, 1, 1, 0]] 0 2 +
      entry [[-1, 0, 1, 0, 0, 0], [0, -1, 0, 0, 0, 1], [-1, -1, 0, 1, 1, 0]] 0 4 = 0 ∧
    entry [[-1, 0, 1, 0, 0, 0], [0, -1, 0, 0, 0, 1], [-1, -1, 0, 1, 1, 0]] 1 1 +
      entry [[-1, 0, 1, 0, 0, 0], [0, -1, 0, 0, 0, 1], [-1, -1, 0, 1, 1, 0]] 1 3 +
      entry [[-1, 0, 1, 0, 0, 0], [0, -1, 0, 0, 0, 1], [-1, -1, 0, 1, 1, 0]] 1 5 = 0 ∧
    matVec [[-1, 0, 1, 0, 0, 0], [0, -1, 0, 0, 0, 1], [-1, -1, 0, 1, 1, 0]]
      [3, 5, 3, 5, 3, 5] = [0, 0, 0]) := by
  have hnd : ¬ |area (⟨0, 0, 1, 0, 0, 1⟩ : Tri)| < degenEps := by
    have : area (⟨0, 0, 1, 0, 0, 1⟩ : Tri) = 1 / 2 := by norm_num [area]
    rw [this, abs_of_nonneg (by norm_num : (0 : ℚ) ≤ 1 / 2)]
    norm_num [degenEps]
  have hok : compute_B_matrix ⟨0, 0, 1, 0, 0, 1⟩ = Except.ok
      [[-1, 0, 1, 0, 0, 0], [0, -1, 0, 0, 0, 1], [-1, -1, 0, 1, 1, 0]] := by
    rw [compute_B_matrix_ok_of_not_degen _ hnd]
    norm_num [Bsingle, area]
  exact ⟨hok, B_matrix_rigid_body_translation ⟨0, 0, 1, 0, 0, 1⟩ _ 3 5 hok⟩

end FEM
